import Mathlib

/-!
Verification of the LawAssistantAgent document intake-and-response pipeline.

The Python sources (grader.py, grader_utils.py, pdf_processor.py,
email_worker.py, main.py) are shallowly embedded below.  Text manipulated by
the pipeline is modelled as List Char (Python str), JSON values produced by
the json library collaborator as the inductive type Json, and external
collaborators (the LLM client, the json parser, the mail transports, the PDF
library, the environment) as explicit function parameters.  Fallible
collaborator calls return Except, mirroring Python exceptions; the embedded
repository functions are total exactly where the Python code catches every
exception.
-/

namespace LawAssistant

/-- A JSON value as returned by the json library collaborator
(json.loads), and as held in the persisted results file. -/
inductive Json where
  | null : Json
  | bool : Bool → Json
  | num : Int → Json
  | str : String → Json
  | arr : List Json → Json
  | obj : List (String × Json) → Json

/-- Python truthiness of a JSON value (used by the checks written as
"if not rubric_data" in grader.py): None, False, 0, empty string, empty
list and empty dict are falsy. -/
def jsonTruthy : Json → Bool
  | Json.null => false
  | Json.bool b => b
  | Json.num n => !(n == 0)
  | Json.str s => !(s == "")
  | Json.arr xs => !xs.isEmpty
  | Json.obj fs => !fs.isEmpty

/-- Python truthiness of an Optional JSON value (None is falsy). -/
def optTruthy : Option Json → Bool
  | none => false
  | some j => jsonTruthy j

/-- dict.get(key, default) on the field list of a JSON object.  Python
dicts built by json.loads have unique keys, so taking the first match is
faithful. -/
def dict_get (fs : List (String × Json)) (key : String) (default : Json) : Json :=
  match fs.find? (fun p => p.fst == key) with
  | some p => p.snd
  | none => default

/-- value.get(key, default) where the receiver is a JSON value expected to
be a dict.  The rubric configuration is static well-formed JSON, so the
entries this is applied to are objects. -/
def pyGet (j : Json) (key : String) (default : Json) : Json :=
  match j with
  | Json.obj fs => dict_get fs key default
  | _ => default

/-- A key-membership test: isinstance(result, dict) and "error" in result. -/
def hasErrorKey (j : Json) : Bool :=
  match j with
  | Json.obj fs => fs.any (fun p => p.fst == "error")
  | _ => false

/-- Whether a JSON value is a dict (the isinstance check of
write_result_to_file). -/
def isDict : Json → Bool
  | Json.obj _ => true
  | _ => false

/-- str.find(char) of Python: index of the first occurrence, or None for
the -1 sentinel. -/
def pyFind (c : Char) : List Char → Option Nat
  | [] => none
  | x :: xs => if x = c then some 0 else (pyFind c xs).map (· + 1)

/-- str.rfind(char) of Python: index of the last occurrence, or None for
the -1 sentinel. -/
def pyRfind (c : Char) : List Char → Option Nat
  | [] => none
  | x :: xs =>
    match pyRfind c xs with
    | some i => some (i + 1)
    | none => if x = c then some 0 else none

/-- The "needle in haystack" substring test of Python. -/
def containsSub (pat : List Char) : List Char → Bool
  | [] => pat.isPrefixOf []
  | c :: cs => pat.isPrefixOf (c :: cs) || containsSub pat cs

/-! ## Document Classifier (email_worker.py detect_document_type;
main.py carries the identical keyword logic inside a try block whose
except branch is unreachable for string input). -/

/-- The bank-statement keyword set test of detect_document_type, applied
to the lowercased text. -/
def bank_keyword_match (text_lower : List Char) : Bool :=
  containsSub "bank statement".data text_lower ||
  containsSub "account balance".data text_lower ||
  containsSub "checking account".data text_lower

/-- The credit-report keyword set test of detect_document_type, applied
to the lowercased text. -/
def credit_keyword_match (text_lower : List Char) : Bool :=
  containsSub "credit report".data text_lower ||
  containsSub "credit score".data text_lower ||
  containsSub "fico".data text_lower ||
  containsSub "experian".data text_lower

/-- detect_document_type from email_worker.py: case-insensitive keyword
lookup, bank-statement keywords checked first, defaulting to generic. -/
def detect_document_type (text : List Char) : String :=
  let text_lower := text.map Char.toLower
  if bank_keyword_match text_lower then "bank_statement"
  else if credit_keyword_match text_lower then "credit_report"
  else "generic"

/-! ## Analysis Client (grader.py) -/

mutual

/-- The str() conversion applied by f-string interpolation to values taken
out of a parsed JSON response.  Scalars follow Python exactly (None, True,
False, integer digits, the raw characters of a string); for the nested
container cases the Python repr quoting of elements is rendered in a
simplified JSON-like style, which only ever flows into the stored
grade_output text and the outbound email body. -/
def pyStr : Json → String
  | Json.null => "None"
  | Json.bool true => "True"
  | Json.bool false => "False"
  | Json.num n => toString n
  | Json.str s => s
  | Json.arr xs => "[" ++ pyStrList xs ++ "]"
  | Json.obj fs => "\x7b" ++ pyStrFields fs ++ "\x7d"

/-- Comma-separated rendering of a JSON array body for pyStr. -/
def pyStrList : List Json → String
  | [] => ""
  | [x] => pyStr x
  | x :: xs => pyStr x ++ ", " ++ pyStrList xs

/-- Comma-separated rendering of a JSON object body for pyStr. -/
def pyStrFields : List (String × Json) → String
  | [] => ""
  | [(k, v)] => k ++ ": " ++ pyStr v
  | (k, v) :: fs => k ++ ": " ++ pyStr v ++ ", " ++ pyStrFields fs

end

/-- The criteria loop of format_rubric_for_prompt: one block of lines per
criterion, with dict.get defaults "N/A" and 0. -/
def format_criteria : List Json → String
  | [] => ""
  | c :: cs =>
    "Criteria: " ++ pyStr (pyGet c "title" (Json.str "N/A")) ++ " (" ++
      pyStr (pyGet c "points" (Json.num 0)) ++ " points)\n" ++
    "Description: " ++ pyStr (pyGet c "description" (Json.str "N/A")) ++ "\n" ++
    "\n" ++ format_criteria cs

/-- The list of criteria entries of a rubric value: rubric_data.get
("criteria", []) iterated as a list. -/
def rubric_criteria (rd : Json) : List Json :=
  match pyGet rd "criteria" (Json.arr []) with
  | Json.arr xs => xs
  | _ => []

/-- format_rubric_for_prompt from grader.py.  A falsy rubric value
(None, empty dict) yields the fixed placeholder text. -/
def format_rubric_for_prompt (rubric_data : Option Json) : String :=
  if !(optTruthy rubric_data) then "No rubric provided."
  else
    match rubric_data with
    | some rd =>
      "Rubric Name: " ++ pyStr (pyGet rd "name" (Json.str "N/A")) ++ "\n" ++
      "Description: " ++ pyStr (pyGet rd "description" (Json.str "N/A")) ++ "\n\n" ++
      format_criteria (rubric_criteria rd)
    | none => "No rubric provided."

/-- The prompt assembled by analyze_document.  The fixed instructional
prose and the json.dumps-rendered schema example are long string constants
that are passed unread to the LLM collaborator; they are abbreviated to
their opening sentences here, since the pipeline never inspects the prompt
and no claim depends on its exact contents. -/
def analysis_prompt (formatted_rubric : String) (document_text : List Char) : List Char :=
  ("You are an AI assistant acting as a Senior Financial Analyst and Legal Document Reviewer working for a law firm. Here are the analysis criteria for this document: " ++
    formatted_rubric ++
    " Here is the financial document to analyze: ").data ++
  document_text ++
  " Your response MUST be a valid JSON object ONLY. The JSON object should strictly follow this format: ...".data

/-- analyze_document from grader.py.

Collaborator parameters: loadRubric models load_rubric (rubrics.json
lookup, None when the file or the key is missing); generate models
model.generate_content plus the response.text access, with Except.error
for a raised transport exception (caught by the outer try of the source);
jsonLoads models json.loads, with Except.error carrying the
JSONDecodeError message.

The body mirrors the source: resolve the rubric (falsy resolution returns
the rubric error dict without an LLM call), invoke the model once, locate
the first open brace and the last close brace of the response text, and
parse that slice; a missing brace pair or a parse failure yields the error
dict carrying raw_response. -/
def analyze_document (loadRubric : String → Option Json)
    (generate : List Char → Except String (List Char))
    (jsonLoads : List Char → Except String Json)
    (document_text : List Char) (rubric_name : String := "generic") : Json :=
  let rubric_data := loadRubric rubric_name
  let formatted_rubric := format_rubric_for_prompt rubric_data
  if !(optTruthy rubric_data) then
    Json.obj [("error",
      Json.str ("Rubric " ++ rubric_name ++ " not found or could not be loaded."))]
  else
    match generate (analysis_prompt formatted_rubric document_text) with
    | Except.error e =>
      Json.obj [("error", Json.str ("Error during grading: " ++ e))]
    | Except.ok raw_response_text =>
      match pyFind '{' raw_response_text, pyRfind '}' raw_response_text with
      | some json_start, some json_end =>
        if json_end > json_start then
          match jsonLoads ((raw_response_text.drop json_start).take
              (json_end + 1 - json_start)) with
          | Except.ok json_response => json_response
          | Except.error e =>
            Json.obj [("error", Json.str ("Failed to parse AI response as JSON: " ++ e)),
                      ("raw_response", Json.str (String.mk raw_response_text))]
        else
          Json.obj [("error", Json.str "No valid JSON object found in AI response"),
                    ("raw_response", Json.str (String.mk raw_response_text))]
      | _, _ =>
        Json.obj [("error", Json.str "No valid JSON object found in AI response"),
                  ("raw_response", Json.str (String.mk raw_response_text))]

/-- grade_assignment from grader.py: the backward compatible wrapper that
forwards to analyze_document. -/
def grade_assignment (loadRubric : String → Option Json)
    (generate : List Char → Except String (List Char))
    (jsonLoads : List Char → Except String Json)
    (assignment_text : List Char) (rubric_name : String := "generic") : Json :=
  analyze_document loadRubric generate jsonLoads assignment_text rubric_name

/-! ## Result Store (grader_utils.py)

The persisted grading_results.json file is modelled as
Option (List Json): none when the file does not exist, some data when it
holds the JSON array the store maintains. -/

/-- write_result_to_file from grader_utils.py: read the whole existing
list (absence reads as empty), append the record if it is a dict, else
try json.loads when it is a string (json.loads on a non-string raises
TypeError, which the source catches and appends nothing), then write the
whole list back. -/
def write_result_to_file (jsonLoads : List Char → Except String Json)
    (store : Option (List Json)) (result : Json) : Option (List Json) :=
  let data := match store with
    | some l => l
    | none => []
  let data2 := match result with
    | Json.obj fs => data ++ [Json.obj fs]
    | Json.str s =>
      (match jsonLoads s.data with
       | Except.ok parsed_result => data ++ [parsed_result]
       | Except.error _ => data)
    | _ => data
  some data2

/-- read_all_results from grader_utils.py: the whole persisted list, or
empty when no file exists. -/
def read_all_results (store : Option (List Json)) : List Json :=
  match store with
  | some l => l
  | none => []

/-! ## Document Extractor (pdf_processor.py) -/

/-- One page of the PDF library collaborator, as consumed by
page.extract_text() inside the loop of extract_text_from_pdf: the call
returns a string, returns a falsy value (None, handled by the
"or empty string" guard), or raises. -/
inductive PageRead where
  | text : String → PageRead
  | noText : PageRead
  | raises : String → PageRead

/-- Whether a page read raises. -/
def isRaise : PageRead → Bool
  | PageRead.raises _ => true
  | _ => false

/-- The page loop of extract_text_from_pdf.  A page that raises aborts the
loop: the exception propagates to the enclosing try, whose except branch
returns the empty string for the whole document. -/
def extract_pages_loop : List PageRead → String → String
  | [], acc => acc
  | p :: ps, acc =>
    match p with
    | PageRead.text s => extract_pages_loop ps (acc ++ s)
    | PageRead.noText => extract_pages_loop ps (acc ++ "")
    | PageRead.raises _ => ""

/-- extract_text_from_pdf from pdf_processor.py.  The reader collaborator
models PdfReader(file_path) and its pages sequence; a reader failure is
caught by the try and degrades the whole extraction to the empty string.
The function is total: it never raises. -/
def extract_text_from_pdf (reader : String → Except String (List PageRead))
    (file_path : String) : String :=
  match reader file_path with
  | Except.error _ => ""
  | Except.ok pages => extract_pages_loop pages ""

/-- Modelled from the spec: the per-page degradation the claim describes
for the Document Extractor output, in which a failed page contributes the
empty string for that page only and every other page still contributes
its text.  Stated for comparison with extract_text_from_pdf. -/
def claimed_page_concat : List PageRead → String
  | [] => ""
  | p :: ps =>
    (match p with
     | PageRead.text s => s
     | PageRead.noText => ""
     | PageRead.raises _ => "") ++ claimed_page_concat ps

/-! ## Pipeline (email_worker.py process_and_respond)

The main.py variant differs only in logging, in a wall-clock timestamp
instead of the empty string, and in SMTP rather than Gmail-API delivery;
the branch structure relevant to the claims is identical. -/

/-- str.replace of underscore by space, as used for the course field. -/
def py_replace_underscore (s : String) : String :=
  String.mk (s.data.map (fun c => if c = '_' then ' ' else c))

/-- str.title() of Python: the first letter of each alphabetic run is
uppercased and the rest lowercased. -/
def py_title_aux : Bool → List Char → List Char
  | _, [] => []
  | prevAlpha, c :: cs =>
    (if c.isAlpha then (if prevAlpha then c.toLower else c.toUpper) else c) ::
      py_title_aux c.isAlpha cs

/-- str.title() of Python. -/
def py_title (s : String) : String :=
  String.mk (py_title_aux false s.data)

/-- The frontend_result dict built by process_and_respond from a
successful (dict-shaped) analysis result, with the empty timestamp of the
email_worker.py variant. -/
def frontend_result (fs : List (String × Json))
    (recipient_email doc_type : String) : Json :=
  Json.obj [
    ("name", dict_get fs "client_name" (Json.str "Unknown")),
    ("email", Json.str recipient_email),
    ("course", Json.str (py_title (py_replace_underscore doc_type))),
    ("grade_output", Json.str
      ("Assessment: " ++ pyStr (dict_get fs "overall_assessment" (Json.str "Pending Review")) ++
       "\n\nSummary: " ++ pyStr (dict_get fs "analysis_summary" (Json.str "No summary available")) ++
       "\n\nKey Findings: " ++ pyStr (dict_get fs "key_findings" (Json.str "No findings")) ++
       "\n\nRed Flags: " ++ pyStr (dict_get fs "red_flags" (Json.str "None identified")) ++
       "\n\nRecommendations: " ++ pyStr (dict_get fs "recommendations" (Json.str "No recommendations")))),
    ("timestamp", Json.str ""),
    ("criteria_scores", dict_get fs "criteria_analysis" (Json.arr [])),
    ("document_type", Json.str doc_type),
    ("red_flags", dict_get fs "red_flags" (Json.str "None identified"))]

/-- The externally observable outcome of one process_and_respond call:
the Result Store afterwards and which notifier ran. -/
structure PipelineEffects where
  store : Option (List Json)
  error_sent : Bool
  feedback_sent : Bool

/-- process_and_respond from email_worker.py.  The collaborator
process_single_pdf yields the extracted text; the analysis collaborators
are those of analyze_document.  An analysis result that is a dict with an
error key takes the early-return error branch: send_email_error runs and
the store is untouched.  A non-dict analysis result makes the subsequent
attribute access raise, which the enclosing try converts into the same
error-notification path.  Otherwise the frontend_result record is
appended to the store and the feedback report is sent.  The feedback body
formatting (a fixed-section plain-text report) flows only into the mail
transport and is not tracked here. -/
def process_and_respond (process_single_pdf : String → List Char)
    (loadRubric : String → Option Json)
    (generate : List Char → Except String (List Char))
    (jsonLoads : List Char → Except String Json)
    (store : Option (List Json))
    (pdf_path recipient_email original_subject : String) : PipelineEffects :=
  let extracted_text := process_single_pdf pdf_path
  let doc_type := detect_document_type extracted_text
  let analysis_result := analyze_document loadRubric generate jsonLoads extracted_text doc_type
  if hasErrorKey analysis_result then
    { store := store, error_sent := true, feedback_sent := false }
  else
    match analysis_result with
    | Json.obj fs =>
      { store := write_result_to_file jsonLoads store
          (frontend_result fs recipient_email doc_type),
        error_sent := false, feedback_sent := true }
    | _ =>
      { store := store, error_sent := true, feedback_sent := false }

/-! ## Startup credential validation (email_worker.py module body,
grader.py module body) -/

/-- os.getenv over an environment modelled as an association list. -/
def py_getenv (env : List (String × String)) (key : String) : Option String :=
  (env.find? (fun p => p.fst == key)).map (fun p => p.snd)

/-- Python truthiness of an optional environment value: unset and empty
are falsy. -/
def truthyEnv : Option String → Bool
  | none => false
  | some s => !(s == "")

/-- The Python "or" between two environment lookups, as in
os.getenv("GMAIL_ADDRESS") or os.getenv("EMAIL_ADDRESS"). -/
def py_or_env (a b : Option String) : Option String :=
  if truthyEnv a then a else b

/-- The grader.py module body check of GEMINI_API_KEY: a missing or empty
key only prints a warning line; genai.configure stores the key without
validating it, so module import succeeds either way and the failure
surfaces at the first LLM call.  True when the warning branch is taken. -/
def grader_startup_warns (env : List (String × String)) : Bool :=
  !truthyEnv (py_getenv env "GEMINI_API_KEY")

/-- The email_worker.py module body credential validation (which runs
after importing grader, whose own module body never raises for a missing
GEMINI_API_KEY): each of the five Gmail variables is checked for Python
truthiness, the first failing check raising ValueError with the message
given in the source. -/
def email_worker_startup (env : List (String × String)) : Except String Unit :=
  let gmail_address := py_or_env (py_getenv env "GMAIL_ADDRESS") (py_getenv env "EMAIL_ADDRESS")
  let gmail_password := py_or_env (py_getenv env "GMAIL_PASSWORD") (py_getenv env "EMAIL_PASSWORD")
  let gmail_client_id := py_getenv env "GMAIL_CLIENT_ID"
  let gmail_client_secret := py_getenv env "GMAIL_CLIENT_SECRET"
  let gmail_access_token := py_getenv env "GMAIL_ACCESS_TOKEN"
  if !truthyEnv gmail_address then
    Except.error "GMAIL_ADDRESS (or EMAIL_ADDRESS) environment variable is required"
  else if !truthyEnv gmail_password then
    Except.error "GMAIL_PASSWORD (or EMAIL_PASSWORD) environment variable is required"
  else if !truthyEnv gmail_client_id then
    Except.error "GMAIL_CLIENT_ID environment variable is required for Gmail API"
  else if !truthyEnv gmail_client_secret then
    Except.error "GMAIL_CLIENT_SECRET environment variable is required for Gmail API"
  else if !truthyEnv gmail_access_token then
    Except.error "GMAIL_ACCESS_TOKEN environment variable is required for Gmail API"
  else
    Except.ok ()

/-! ## Notifier (email_worker.py and main.py send paths) -/

/-- The value a Python function call evaluates to when it returns
normally: None when the body falls off the end, or an explicit boolean. -/
inductive PyRet where
  | none : PyRet
  | bool : Bool → PyRet

/-- Whether a normally returned Python value is a boolean. -/
def isBoolRet : PyRet → Bool
  | PyRet.bool _ => true
  | PyRet.none => false

/-- Python str.strip() restricted to the whitespace characters known to
Char.isWhitespace. -/
def py_strip (s : List Char) : List Char :=
  ((s.dropWhile Char.isWhitespace).reverse.dropWhile Char.isWhitespace).reverse

/-- extract_email_address from email_worker.py: the non-greedy search for
an angle-bracketed address.  The earliest match of the pattern starts at
the first open angle bracket, captures at least one character (which may
itself contain angle brackets), and ends at the first close angle bracket
lying at least two positions later; with no such match the whole string
is stripped of surrounding whitespace. -/
def extract_email_address (sender_string : String) : String :=
  let s := sender_string.data
  match pyFind '<' s with
  | some i =>
    let rest := s.drop (i + 1)
    match pyFind '>' (rest.drop 1) with
    | some j => String.mk (rest.take (j + 1))
    | none => String.mk (py_strip s)
  | none => String.mk (py_strip s)

/-- send_email_via_gmail_api from email_worker.py.  gmail_service models
the global service handle (false when get_gmail_service failed at
startup); sendApi models the Gmail API send call chain, returning the
message id or raising.  Every exception of the transport is caught and
logged, and the function returns the boolean success indicator. -/
def send_email_via_gmail_api (gmail_service : Bool)
    (sendApi : String → String → String → Except String String)
    (to_email subject body : String) : Bool :=
  if !gmail_service then false
  else
    let clean_email := extract_email_address to_email
    match sendApi clean_email subject body with
    | Except.ok _ => true
    | Except.error _ => false

/-- send_email_error from email_worker.py: builds the error body and
subject, calls the transport helper, prints according to the boolean it
got back, and falls off the end — so the call itself always returns None
and never raises, whatever the transport does. -/
def send_email_error (gmail_service : Bool)
    (sendApi : String → String → String → Except String String)
    (recipient_email original_subject error_message : String) : PyRet :=
  let error_body := "An error occurred while processing your financial document (Subject: " ++
    original_subject ++ "):\n\n" ++ error_message ++
    "\n\nPlease ensure the document is a valid PDF and try again, or contact our support team."
  let subject := "Re: " ++ original_subject ++ " - Error Processing Document"
  let _success := send_email_via_gmail_api gmail_service sendApi recipient_email subject error_body
  PyRet.none

/-- The brace escaping of main.py send_email_error: replace of the open
brace by a doubled open brace followed by replace of the close brace by a
doubled close brace.  The two passes touch disjoint characters, so one
pass doubling each brace is equivalent. -/
def escape_braces : List Char → List Char
  | [] => []
  | c :: cs =>
    if c = '{' then c :: c :: escape_braces cs
    else if c = '}' then c :: c :: escape_braces cs
    else c :: escape_braces cs

/-- send_email_error from main.py: the whole body sits in a try whose
except branch only logs, so the function always returns None and never
raises; smtpSend models the SMTP login-and-send, raising on failure. -/
def send_email_error_main (smtpSend : String → String → String → Except String Unit)
    (recipient_email original_subject error_message : String) : PyRet :=
  let escaped_error_message := String.mk (escape_braces error_message.data)
  let error_body := "An error occurred while processing your financial document (Subject: " ++
    original_subject ++ "):\n\n" ++ escaped_error_message ++
    "\n\nPlease ensure the document is a valid PDF and try again, or contact our support team."
  let subject := "Re: " ++ original_subject ++ " - Error Processing Document"
  match smtpSend recipient_email subject error_body with
  | Except.ok _ => PyRet.none
  | Except.error _ => PyRet.none

/-! ## Result Store under the worker pool (email_worker.py executor)

email_worker.py submits process_and_respond to a ThreadPoolExecutor of
three workers, so two write_result_to_file calls can interleave.  The
read-modify-write of one append is decomposed into its read step and its
write step; a schedule interleaves the steps of two appends running on a
shared store. -/

/-- The read phase of write_result_to_file: the whole existing list, with
absence read as the empty list. -/
def rmw_read (store : Option (List Json)) : List Json :=
  match store with
  | some l => l
  | none => []

/-- The write phase of write_result_to_file for a dict record: the
in-memory list with the record appended is written back whole. -/
def rmw_write (data : List Json) (record : Json) : Option (List Json) :=
  some (data ++ [record])

/-- One scheduling step of two concurrent appends: which thread reads or
writes next. -/
inductive RmwStep where
  | read1 : RmwStep
  | write1 : RmwStep
  | read2 : RmwStep
  | write2 : RmwStep

/-- Shared store plus the in-memory list each thread has read so far
(none before its read step). -/
structure ConcState where
  store : Option (List Json)
  local1 : Option (List Json)
  local2 : Option (List Json)

/-- Effect of one scheduling step; a write before the corresponding read
leaves the state unchanged (such schedules are not used). -/
def rmw_step (r1 r2 : Json) (s : ConcState) : RmwStep → ConcState
  | RmwStep.read1 => { s with local1 := some (rmw_read s.store) }
  | RmwStep.write1 =>
    match s.local1 with
    | some d => { s with store := rmw_write d r1 }
    | none => s
  | RmwStep.read2 => { s with local2 := some (rmw_read s.store) }
  | RmwStep.write2 =>
    match s.local2 with
    | some d => { s with store := rmw_write d r2 }
    | none => s

/-- Run a schedule of steps of the two appends from an initial store. -/
def run_schedule (r1 r2 : Json) (init : Option (List Json))
    (sched : List RmwStep) : ConcState :=
  sched.foldl (rmw_step r1 r2) { store := init, local1 := none, local2 := none }

/-! ## Helper lemmas on the find and rfind embeddings -/

theorem pyFind_cons_self (c : Char) (l : List Char) : pyFind c (c :: l) = some 0 := by
  simp [pyFind]

theorem pyFind_append_of_not_mem (c : Char) (l₁ l₂ : List Char) (h : c ∉ l₁) :
    pyFind c (l₁ ++ l₂) = (pyFind c l₂).map (· + l₁.length) := by
  induction l₁ with
  | nil => cases h₂ : pyFind c l₂ <;> simp [h₂]
  | cons x xs ih =>
    simp only [List.mem_cons, not_or] at h
    have hx : ¬ x = c := fun hh => h.1 hh.symm
    simp only [List.cons_append, pyFind, if_neg hx, List.append_eq, ih h.2,
      List.length_cons]
    cases pyFind c l₂ with
    | none => rfl
    | some n => simp [Nat.add_assoc]

theorem pyRfind_of_not_mem (c : Char) (l : List Char) (h : c ∉ l) :
    pyRfind c l = none := by
  induction l with
  | nil => rfl
  | cons x xs ih =>
    simp only [List.mem_cons, not_or] at h
    have hx : ¬ x = c := fun hh => h.1 hh.symm
    simp [pyRfind, ih h.2, hx]

theorem pyRfind_append_of_not_mem (c : Char) (l₁ l₂ : List Char) (h : c ∉ l₂) :
    pyRfind c (l₁ ++ l₂) = pyRfind c l₁ := by
  induction l₁ with
  | nil => rw [List.nil_append, pyRfind_of_not_mem c l₂ h]; rfl
  | cons x xs ih => simp only [List.cons_append, pyRfind, List.append_eq, ih]

theorem pyRfind_concat_self (c : Char) (l : List Char) :
    pyRfind c (l ++ [c]) = some l.length := by
  induction l with
  | nil => simp [pyRfind]
  | cons x xs ih =>
    simp only [List.cons_append, pyRfind, List.append_eq, ih, List.length_cons]

theorem pyFind_some_get (c : Char) (l : List Char) (i : Nat)
    (h : pyFind c l = some i) : l.get? i = some c := by
  induction l generalizing i with
  | nil => simp [pyFind] at h
  | cons x xs ih =>
    simp only [pyFind] at h
    by_cases hx : x = c
    · rw [if_pos hx] at h
      simp only [Option.some.injEq] at h
      subst h
      simp [hx]
    · rw [if_neg hx] at h
      cases h₂ : pyFind c xs with
      | none => rw [h₂] at h; simp at h
      | some j =>
        rw [h₂] at h
        simp at h
        subst h
        simpa using ih j h₂

theorem pyRfind_some_get (c : Char) (l : List Char) (i : Nat)
    (h : pyRfind c l = some i) : l.get? i = some c := by
  induction l generalizing i with
  | nil => simp [pyRfind] at h
  | cons x xs ih =>
    simp only [pyRfind] at h
    cases h₂ : pyRfind c xs with
    | some j =>
      rw [h₂] at h
      simp only [Option.some.injEq] at h
      subst h
      simpa using ih j h₂
    | none =>
      rw [h₂] at h
      by_cases hx : x = c
      · rw [if_pos hx] at h
        simp only [Option.some.injEq] at h
        subst h
        simp [hx]
      · rw [if_neg hx] at h
        simp at h

theorem no_brace_pair_of_no_open (raw : List Char) (h : '{' ∉ raw) :
    ¬ ∃ i j : Nat, i < j ∧ raw.get? i = some '{' ∧ raw.get? j = some '}' := by
  rintro ⟨i, j, -, hi, -⟩
  exact h (List.get?_mem hi)

theorem brace_find_of_decomp (pre mid suf : List Char) (hpre : '{' ∉ pre) :
    pyFind '{' (pre ++ ('{' :: (mid ++ ['}'])) ++ suf) = some pre.length := by
  rw [List.append_assoc, pyFind_append_of_not_mem _ _ _ hpre, List.cons_append,
    pyFind_cons_self]
  simp

theorem brace_rfind_of_decomp (pre mid suf : List Char) (hsuf : '}' ∉ suf) :
    pyRfind '}' (pre ++ ('{' :: (mid ++ ['}'])) ++ suf) =
      some (pre.length + mid.length + 1) := by
  rw [pyRfind_append_of_not_mem _ _ _ hsuf]
  have hsplit : pre ++ ('{' :: (mid ++ ['}'])) = (pre ++ ('{' :: mid)) ++ ['}'] := by
    simp
  rw [hsplit, pyRfind_concat_self]
  simp only [Option.some.injEq, List.length_append, List.length_cons]
  omega

theorem brace_slice_of_decomp (pre mid suf : List Char) :
    ((pre ++ ('{' :: (mid ++ ['}'])) ++ suf).drop pre.length).take
      (pre.length + mid.length + 1 + 1 - pre.length) = '{' :: (mid ++ ['}']) := by
  rw [List.append_assoc, List.drop_left]
  have hlen : pre.length + mid.length + 1 + 1 - pre.length =
      ('{' :: (mid ++ ['}'])).length := by
    simp only [List.length_cons, List.length_append, List.length_nil]
    omega
  rw [hlen, List.take_left]

/-! ## Claims about the Analysis Client wrapper and the Classifier -/

/-- Claim C10: grade_assignment is an exact backward-compatibility
wrapper: for every set of collaborators, every document text and every
rubric name it returns precisely what analyze_document returns. -/
theorem C10_grade_assignment_equals_analyze_document
    (loadRubric : String → Option Json)
    (generate : List Char → Except String (List Char))
    (jsonLoads : List Char → Except String Json)
    (assignment_text : List Char) (rubric_name : String) :
    grade_assignment loadRubric generate jsonLoads assignment_text rubric_name =
      analyze_document loadRubric generate jsonLoads assignment_text rubric_name := rfl

/-- Claim C3: the document classifier is total and deterministic (it is a
function into the three tag strings, so equal inputs give equal outputs);
the match is the case-insensitive substring check of the two keyword
sets; the result is always one of the three tags, defaulting to generic
when neither keyword set matches; and the bank-statement keywords take
precedence, in particular on texts matching both keyword sets. -/
theorem C3_classifier_total_deterministic_precedence (text : List Char) :
    (detect_document_type text = "bank_statement" ∨
     detect_document_type text = "credit_report" ∨
     detect_document_type text = "generic") ∧
    (bank_keyword_match (text.map Char.toLower) = true →
      detect_document_type text = "bank_statement") ∧
    (bank_keyword_match (text.map Char.toLower) = true ∧
     credit_keyword_match (text.map Char.toLower) = true →
      detect_document_type text = "bank_statement") ∧
    (bank_keyword_match (text.map Char.toLower) = false ∧
     credit_keyword_match (text.map Char.toLower) = false →
      detect_document_type text = "generic") := by
  unfold detect_document_type
  cases hb : bank_keyword_match (text.map Char.toLower) <;>
    cases hc : credit_keyword_match (text.map Char.toLower) <;>
      simp [hb, hc]

/-- Witness for C3 at a text matching both keyword sets: the
bank-statement tag wins. -/
theorem C3_witness :
    bank_keyword_match ("Credit Report with Account Balance".data.map Char.toLower) = true ∧
    credit_keyword_match ("Credit Report with Account Balance".data.map Char.toLower) = true ∧
    detect_document_type "Credit Report with Account Balance".data = "bank_statement" :=
  ⟨by decide, by decide,
    (C3_classifier_total_deterministic_precedence
      "Credit Report with Account Balance".data).2.2.1 ⟨by decide, by decide⟩⟩

/-- Claim C1: whenever the LLM collaborator responds with a valid JSON
object embedded in surrounding prose — a response of the form
prose-prefix, then an object body opening with the first open brace and
closing with the last close brace, then a prose suffix — analyze_document
returns exactly the object parsed from the brace-to-brace slice, ignoring
the prose.  The prefix carries no open brace and the suffix no close
brace, which is precisely the regime in which the first-open-brace to
last-close-brace slice of the source is the embedded object. -/
theorem C1_analyze_document_extracts_embedded_json
    (loadRubric : String → Option Json)
    (generate : List Char → Except String (List Char))
    (jsonLoads : List Char → Except String Json)
    (document_text : List Char) (rubric_name : String)
    (rd : Json) (pre mid suf : List Char) (v : Json)
    (hload : loadRubric rubric_name = some rd)
    (htruthy : jsonTruthy rd = true)
    (hgen : generate (analysis_prompt (format_rubric_for_prompt (some rd)) document_text) =
      Except.ok (pre ++ ('{' :: (mid ++ ['}'])) ++ suf))
    (hpre : '{' ∉ pre) (hsuf : '}' ∉ suf)
    (hparse : jsonLoads ('{' :: (mid ++ ['}'])) = Except.ok v) :
    analyze_document loadRubric generate jsonLoads document_text rubric_name = v := by
  unfold analyze_document
  rw [hload]
  simp only [optTruthy, htruthy, Bool.not_true, Bool.false_eq_true, if_false, hgen,
    brace_find_of_decomp pre mid suf hpre, brace_rfind_of_decomp pre mid suf hsuf]
  rw [if_pos (by omega : pre.length + mid.length + 1 > pre.length),
    brace_slice_of_decomp pre mid suf, hparse]

/-- Witness for C1: a concrete response with prose around a small JSON
object, parsed by a concrete jsonLoads collaborator. -/
theorem C1_witness :
    (("Here is the analysis: ".data ++
        ('{' :: ("\"client_name\": \"Jane\"".data ++ ['}'])) ++
        " hope it helps.".data) =
      ("Here is the analysis: ".data ++
        ('{' :: ("\"client_name\": \"Jane\"".data ++ ['}'])) ++
        " hope it helps.".data)) ∧
    analyze_document (fun _ => some (Json.obj [("name", Json.str "generic")]))
      (fun _ => Except.ok ("Here is the analysis: ".data ++
        ('{' :: ("\"client_name\": \"Jane\"".data ++ ['}'])) ++
        " hope it helps.".data))
      (fun s => if s = '{' :: ("\"client_name\": \"Jane\"".data ++ ['}'])
        then Except.ok (Json.obj [("client_name", Json.str "Jane")])
        else Except.error "Expecting value")
      "Bank Statement sample text".data "generic" =
      Json.obj [("client_name", Json.str "Jane")] :=
  ⟨rfl,
    C1_analyze_document_extracts_embedded_json
      (fun _ => some (Json.obj [("name", Json.str "generic")]))
      (fun _ => Except.ok ("Here is the analysis: ".data ++
        ('{' :: ("\"client_name\": \"Jane\"".data ++ ['}'])) ++
        " hope it helps.".data))
      (fun s => if s = '{' :: ("\"client_name\": \"Jane\"".data ++ ['}'])
        then Except.ok (Json.obj [("client_name", Json.str "Jane")])
        else Except.error "Expecting value")
      "Bank Statement sample text".data "generic"
      (Json.obj [("name", Json.str "generic")])
      "Here is the analysis: ".data "\"client_name\": \"Jane\"".data
      " hope it helps.".data
      (Json.obj [("client_name", Json.str "Jane")])
      rfl (by decide) rfl (by decide) (by decide) (by simp)⟩

/-- Claim C2: whenever the LLM collaborator responds with a text holding
no open-brace/close-brace pair in order, analyze_document returns the
error dict whose raw_response field is the whole original response text.
The embedded analyze_document is a total function, so the call returns
this value rather than raising. -/
theorem C2_analyze_document_no_brace_pair_error
    (loadRubric : String → Option Json)
    (generate : List Char → Except String (List Char))
    (jsonLoads : List Char → Except String Json)
    (document_text : List Char) (rubric_name : String)
    (rd : Json) (raw : List Char)
    (hload : loadRubric rubric_name = some rd)
    (htruthy : jsonTruthy rd = true)
    (hgen : generate (analysis_prompt (format_rubric_for_prompt (some rd)) document_text) =
      Except.ok raw)
    (hnopair : ¬ ∃ i j : Nat, i < j ∧ raw.get? i = some '{' ∧ raw.get? j = some '}') :
    analyze_document loadRubric generate jsonLoads document_text rubric_name =
      Json.obj [("error", Json.str "No valid JSON object found in AI response"),
                ("raw_response", Json.str (String.mk raw))] := by
  unfold analyze_document
  rw [hload]
  simp only [optTruthy, htruthy, Bool.not_true, Bool.false_eq_true, if_false, hgen]
  cases hf : pyFind '{' raw with
  | none => cases pyRfind '}' raw <;> rfl
  | some i =>
    cases hr : pyRfind '}' raw with
    | none => rfl
    | some j =>
      have hij : ¬ j > i := fun hgt =>
        hnopair ⟨i, j, hgt, pyFind_some_get _ _ _ hf, pyRfind_some_get _ _ _ hr⟩
      simp [hij]

/-- Witness for C2 at a concrete brace-free response text. -/
theorem C2_witness :
    ('{' ∉ "I cannot analyze this document.".data) ∧
    analyze_document (fun _ => some (Json.obj [("name", Json.str "generic")]))
      (fun _ => Except.ok "I cannot analyze this document.".data)
      (fun _ => Except.error "Expecting value")
      "some document".data "generic" =
      Json.obj [("error", Json.str "No valid JSON object found in AI response"),
                ("raw_response", Json.str (String.mk "I cannot analyze this document.".data))] :=
  ⟨by decide,
    C2_analyze_document_no_brace_pair_error
      (fun _ => some (Json.obj [("name", Json.str "generic")]))
      (fun _ => Except.ok "I cannot analyze this document.".data)
      (fun _ => Except.error "Expecting value")
      "some document".data "generic"
      (Json.obj [("name", Json.str "generic")])
      "I cannot analyze this document.".data
      rfl (by decide) rfl
      (no_brace_pair_of_no_open "I cannot analyze this document.".data (by decide))⟩

/-! ## Claims about the Result Store -/

theorem write_dicts_foldl (jsonLoads : List Char → Except String Json)
    (rs : List Json) (l : List Json) (h : rs.all isDict = true) :
    read_all_results (rs.foldl (write_result_to_file jsonLoads) (some l)) = l ++ rs := by
  induction rs generalizing l with
  | nil => simp [read_all_results]
  | cons r rs ih =>
    rw [List.all_cons, Bool.and_eq_true] at h
    obtain ⟨h1, h2⟩ := h
    cases r <;> simp [isDict] at h1
    rename_i fs
    have step : write_result_to_file jsonLoads (some l) (Json.obj fs) =
        some (l ++ [Json.obj fs]) := rfl
    rw [List.foldl_cons, step, ih (l ++ [Json.obj fs]) h2]
    simp

/-- Claim C4: Result Store round trip.  For every store state and every
dict record, the record written by write_result_to_file is the last
element of read_all_results afterwards; and starting from an absent
store, sequentially appending a list of dict records yields exactly that
list, in insertion order (hence of the same length). -/
theorem C4_result_store_round_trip (jsonLoads : List Char → Except String Json)
    (store : Option (List Json)) (fs : List (String × Json)) (rs : List Json) :
    ((read_all_results (write_result_to_file jsonLoads store (Json.obj fs))).getLast? =
      some (Json.obj fs)) ∧
    (rs.all isDict = true →
      read_all_results (rs.foldl (write_result_to_file jsonLoads) none) = rs) := by
  constructor
  · cases store <;> simp [write_result_to_file, read_all_results]
  · intro h
    cases rs with
    | nil => rfl
    | cons r rs' =>
      rw [List.all_cons, Bool.and_eq_true] at h
      obtain ⟨h1, h2⟩ := h
      cases r <;> simp [isDict] at h1
      rename_i fs'
      have step : write_result_to_file jsonLoads none (Json.obj fs') =
          some ([Json.obj fs']) := rfl
      rw [List.foldl_cons, step, write_dicts_foldl jsonLoads rs' [Json.obj fs'] h2]
      rfl

/-- Witness for C4 at a concrete two-record history from the absent
store. -/
theorem C4_witness :
    ([Json.obj [("name", Json.str "a")], Json.obj [("name", Json.str "b")]].all isDict = true) ∧
    read_all_results
      ([Json.obj [("name", Json.str "a")], Json.obj [("name", Json.str "b")]].foldl
        (write_result_to_file (fun _ => Except.error "unused")) none) =
      [Json.obj [("name", Json.str "a")], Json.obj [("name", Json.str "b")]] :=
  ⟨by decide,
    (C4_result_store_round_trip (fun _ => Except.error "unused") none []
      [Json.obj [("name", Json.str "a")], Json.obj [("name", Json.str "b")]]).2 (by decide)⟩

/-! ## Claim about the pipeline error branch -/

/-- Claim C5: whenever the analysis result is a dict containing an error
key, process_and_respond invokes the error notifier and not the report
notifier, and leaves the Result Store untouched. -/
theorem C5_error_result_sends_error_and_skips_store
    (process_single_pdf : String → List Char)
    (loadRubric : String → Option Json)
    (generate : List Char → Except String (List Char))
    (jsonLoads : List Char → Except String Json)
    (store : Option (List Json))
    (pdf_path recipient_email original_subject : String)
    (herr : hasErrorKey (analyze_document loadRubric generate jsonLoads
      (process_single_pdf pdf_path)
      (detect_document_type (process_single_pdf pdf_path))) = true) :
    (process_and_respond process_single_pdf loadRubric generate jsonLoads store
      pdf_path recipient_email original_subject).error_sent = true ∧
    (process_and_respond process_single_pdf loadRubric generate jsonLoads store
      pdf_path recipient_email original_subject).feedback_sent = false ∧
    (process_and_respond process_single_pdf loadRubric generate jsonLoads store
      pdf_path recipient_email original_subject).store = store := by
  unfold process_and_respond
  simp [herr]

/-- Witness for C5: the stubbed rubric loader finds no rubric, the
analysis result is the rubric-missing error dict, the error notifier runs
and the store keeps its prior value. -/
theorem C5_witness :
    hasErrorKey (analyze_document (fun _ => none) (fun _ => Except.error "no llm")
      (fun _ => Except.error "no parse") "sample client text".data
      (detect_document_type "sample client text".data)) = true ∧
    ((process_and_respond (fun _ => "sample client text".data) (fun _ => none)
        (fun _ => Except.error "no llm") (fun _ => Except.error "no parse")
        (some []) "doc.pdf" "user@example.com" "Docs").error_sent = true ∧
      (process_and_respond (fun _ => "sample client text".data) (fun _ => none)
        (fun _ => Except.error "no llm") (fun _ => Except.error "no parse")
        (some []) "doc.pdf" "user@example.com" "Docs").feedback_sent = false ∧
      (process_and_respond (fun _ => "sample client text".data) (fun _ => none)
        (fun _ => Except.error "no llm") (fun _ => Except.error "no parse")
        (some []) "doc.pdf" "user@example.com" "Docs").store = some []) :=
  ⟨by decide,
    C5_error_result_sends_error_and_skips_store
      (fun _ => "sample client text".data) (fun _ => none)
      (fun _ => Except.error "no llm") (fun _ => Except.error "no parse")
      (some []) "doc.pdf" "user@example.com" "Docs" (by decide)⟩

/-! ## Claim about startup credential validation -/

theorem py_getenv_cons_ne (k v key : String) (env : List (String × String))
    (h : (k == key) = false) :
    py_getenv ((k, v) :: env) key = py_getenv env key := by
  simp [py_getenv, List.find?, h]

/-- Counterexample to claim C6 at a concrete environment: all five Gmail
credentials are present but the LLM API key is absent, yet the
email_worker module import succeeds — the process starts — while the
grader module body takes only its printed-warning branch (genai.configure
stores the missing key without validating it at startup). -/
theorem C6_counterexample_missing_llm_key_starts :
    py_getenv [("GMAIL_ADDRESS", "law@example.com"), ("GMAIL_PASSWORD", "pw"),
      ("GMAIL_CLIENT_ID", "id"), ("GMAIL_CLIENT_SECRET", "secret"),
      ("GMAIL_ACCESS_TOKEN", "token")] "GEMINI_API_KEY" = none ∧
    grader_startup_warns [("GMAIL_ADDRESS", "law@example.com"), ("GMAIL_PASSWORD", "pw"),
      ("GMAIL_CLIENT_ID", "id"), ("GMAIL_CLIENT_SECRET", "secret"),
      ("GMAIL_ACCESS_TOKEN", "token")] = true ∧
    email_worker_startup [("GMAIL_ADDRESS", "law@example.com"), ("GMAIL_PASSWORD", "pw"),
      ("GMAIL_CLIENT_ID", "id"), ("GMAIL_CLIENT_SECRET", "secret"),
      ("GMAIL_ACCESS_TOKEN", "token")] = Except.ok () :=
  ⟨rfl, rfl, rfl⟩

/-- Claim C6 amended: startup fails exactly when one of the five mailbox
and outbound-transport credentials (with the documented ADDRESS and
PASSWORD fallbacks) is missing or empty; the LLM API key is never
consulted by the validation — prepending any GEMINI_API_KEY binding
leaves the startup outcome unchanged, its absence selecting only the
printed warning of the grader module. -/
theorem C6_amended_startup_validation (env : List (String × String)) :
    (email_worker_startup env = Except.ok () ↔
      (truthyEnv (py_or_env (py_getenv env "GMAIL_ADDRESS")
          (py_getenv env "EMAIL_ADDRESS")) = true ∧
       truthyEnv (py_or_env (py_getenv env "GMAIL_PASSWORD")
          (py_getenv env "EMAIL_PASSWORD")) = true ∧
       truthyEnv (py_getenv env "GMAIL_CLIENT_ID") = true ∧
       truthyEnv (py_getenv env "GMAIL_CLIENT_SECRET") = true ∧
       truthyEnv (py_getenv env "GMAIL_ACCESS_TOKEN") = true)) ∧
    (∀ k : String, email_worker_startup (("GEMINI_API_KEY", k) :: env) =
      email_worker_startup env) := by
  constructor
  · unfold email_worker_startup
    cases h1 : truthyEnv (py_or_env (py_getenv env "GMAIL_ADDRESS")
        (py_getenv env "EMAIL_ADDRESS")) <;>
      cases h2 : truthyEnv (py_or_env (py_getenv env "GMAIL_PASSWORD")
        (py_getenv env "EMAIL_PASSWORD")) <;>
      cases h3 : truthyEnv (py_getenv env "GMAIL_CLIENT_ID") <;>
      cases h4 : truthyEnv (py_getenv env "GMAIL_CLIENT_SECRET") <;>
      cases h5 : truthyEnv (py_getenv env "GMAIL_ACCESS_TOKEN") <;>
        simp [h1, h2, h3, h4, h5]
  · intro k
    unfold email_worker_startup
    rw [py_getenv_cons_ne _ _ _ _ (by decide), py_getenv_cons_ne _ _ _ _ (by decide),
      py_getenv_cons_ne _ _ _ _ (by decide), py_getenv_cons_ne _ _ _ _ (by decide),
      py_getenv_cons_ne _ _ _ _ (by decide), py_getenv_cons_ne _ _ _ _ (by decide),
      py_getenv_cons_ne _ _ _ _ (by decide)]

/-- Witness for C6 at the concrete five-credential environment. -/
theorem C6_witness :
    email_worker_startup [("GMAIL_ADDRESS", "law@example.com"), ("GMAIL_PASSWORD", "pw"),
      ("GMAIL_CLIENT_ID", "id"), ("GMAIL_CLIENT_SECRET", "secret"),
      ("GMAIL_ACCESS_TOKEN", "token")] = Except.ok () :=
  ((C6_amended_startup_validation [("GMAIL_ADDRESS", "law@example.com"),
      ("GMAIL_PASSWORD", "pw"), ("GMAIL_CLIENT_ID", "id"),
      ("GMAIL_CLIENT_SECRET", "secret"), ("GMAIL_ACCESS_TOKEN", "token")]).1).mpr
    ⟨by decide, by decide, by decide, by decide, by decide⟩

/-! ## Claim about the Result Store under the worker pool -/

theorem write_result_decomposes (jsonLoads : List Char → Except String Json)
    (store : Option (List Json)) (fs : List (String × Json)) :
    write_result_to_file jsonLoads store (Json.obj fs) =
      rmw_write (rmw_read store) (Json.obj fs) := by
  cases store <;> rfl

theorem run_schedule_sequential (jsonLoads : List Char → Except String Json)
    (r1fs r2fs : List (String × Json)) (init : Option (List Json)) :
    (run_schedule (Json.obj r1fs) (Json.obj r2fs) init
      [RmwStep.read1, RmwStep.write1, RmwStep.read2, RmwStep.write2]).store =
      write_result_to_file jsonLoads
        (write_result_to_file jsonLoads init (Json.obj r1fs)) (Json.obj r2fs) := by
  cases init <;> rfl

/-- Claim C7, settled against the code: the unguarded read-modify-write of
write_result_to_file loses a record under the worker-pool interleaving in
which both appends read the store before either writes.  From the empty
store the interleaved run ends holding only the second record — the first
record is not in read_all_results — while the sequential schedule of the
very same two appends ends holding both, in order. -/
theorem C7_interleaving_loses_record :
    read_all_results (run_schedule (Json.obj [("name", Json.str "first")])
      (Json.obj [("name", Json.str "second")]) (some [])
      [RmwStep.read1, RmwStep.read2, RmwStep.write1, RmwStep.write2]).store =
      [Json.obj [("name", Json.str "second")]] ∧
    read_all_results (run_schedule (Json.obj [("name", Json.str "first")])
      (Json.obj [("name", Json.str "second")]) (some [])
      [RmwStep.read1, RmwStep.write1, RmwStep.read2, RmwStep.write2]).store =
      [Json.obj [("name", Json.str "first")], Json.obj [("name", Json.str "second")]] ∧
    ¬ Json.obj [("name", Json.str "first")] ∈
      read_all_results (run_schedule (Json.obj [("name", Json.str "first")])
        (Json.obj [("name", Json.str "second")]) (some [])
        [RmwStep.read1, RmwStep.read2, RmwStep.write1, RmwStep.write2]).store := by
  refine ⟨rfl, rfl, ?_⟩
  intro hmem
  simp only [show read_all_results (run_schedule (Json.obj [("name", Json.str "first")])
      (Json.obj [("name", Json.str "second")]) (some [])
      [RmwStep.read1, RmwStep.read2, RmwStep.write1, RmwStep.write2]).store =
      [Json.obj [("name", Json.str "second")]] from rfl,
    List.mem_singleton] at hmem
  simp at hmem

/-! ## Claim about the Document Extractor -/

theorem str_append_assoc (a b c : String) : a ++ b ++ c = a ++ (b ++ c) := by
  cases a with
  | mk la =>
    cases b with
    | mk lb =>
      cases c with
      | mk lc =>
        show String.mk ((la ++ lb) ++ lc) = String.mk (la ++ (lb ++ lc))
        rw [List.append_assoc]

theorem str_append_empty (a : String) : a ++ "" = a := by
  cases a with
  | mk la =>
    show String.mk (la ++ []) = String.mk la
    rw [List.append_nil]

theorem extract_pages_loop_no_raise (pages : List PageRead) (acc : String)
    (h : pages.all (fun p => !isRaise p) = true) :
    extract_pages_loop pages acc = acc ++ claimed_page_concat pages := by
  induction pages generalizing acc with
  | nil =>
    show acc = acc ++ ""
    rw [str_append_empty]
  | cons p ps ih =>
    rw [List.all_cons, Bool.and_eq_true] at h
    cases p with
    | raises e => simp [isRaise] at h
    | text s =>
      show extract_pages_loop ps (acc ++ s) = acc ++ (s ++ claimed_page_concat ps)
      rw [ih (acc ++ s) h.2, str_append_assoc]
    | noText =>
      show extract_pages_loop ps (acc ++ "") = acc ++ ("" ++ claimed_page_concat ps)
      rw [ih (acc ++ "") h.2, str_append_assoc]

theorem extract_pages_loop_raise (pages : List PageRead) (acc : String)
    (h : pages.any isRaise = true) :
    extract_pages_loop pages acc = "" := by
  induction pages generalizing acc with
  | nil => simp at h
  | cons p ps ih =>
    rw [List.any_cons, Bool.or_eq_true] at h
    cases p with
    | raises e => rfl
    | text s =>
      refine ih (acc ++ s) (h.resolve_left ?_)
      simp [isRaise]
    | noText =>
      refine ih (acc ++ "") (h.resolve_left ?_)
      simp [isRaise]

/-- Counterexample to claim C8 at a concrete reader: page one raises and
page two holds text; the source aborts the whole page loop on the raise
and returns the empty string for the entire document, instead of the
per-page degradation the claim describes, which would keep the page-two
text. -/
theorem C8_counterexample_page_raise_drops_all :
    extract_text_from_pdf
      (fun _ => Except.ok [PageRead.raises "bad page", PageRead.text "hello"])
      "doc.pdf" = "" ∧
    claimed_page_concat [PageRead.raises "bad page", PageRead.text "hello"] = "hello" ∧
    ("" : String) ≠ "hello" :=
  ⟨rfl, by decide, by decide⟩

/-- Claim C8 amended: extract_text_from_pdf never raises (the embedding
is total), and on a readable file none of whose pages raises it returns
the page-order concatenation with falsy page results contributing the
empty string for that page only; but a raising page, like an unreadable
file, degrades the whole extraction to the empty string rather than that
page alone. -/
theorem C8_amended_extraction_behavior
    (reader : String → Except String (List PageRead)) (file_path : String) :
    (∀ pages, reader file_path = Except.ok pages →
      pages.all (fun p => !isRaise p) = true →
      extract_text_from_pdf reader file_path = claimed_page_concat pages) ∧
    (∀ pages, reader file_path = Except.ok pages →
      pages.any isRaise = true →
      extract_text_from_pdf reader file_path = "") ∧
    (∀ e, reader file_path = Except.error e →
      extract_text_from_pdf reader file_path = "") := by
  refine ⟨?_, ?_, ?_⟩
  · intro pages hok hall
    unfold extract_text_from_pdf
    rw [hok]
    show extract_pages_loop pages "" = claimed_page_concat pages
    rw [extract_pages_loop_no_raise pages "" hall]
    rfl
  · intro pages hok hany
    unfold extract_text_from_pdf
    rw [hok]
    show extract_pages_loop pages "" = ""
    exact extract_pages_loop_raise pages "" hany
  · intro e herr
    unfold extract_text_from_pdf
    rw [herr]

/-- Witness for C8 on a three-page document with one falsy page. -/
theorem C8_witness :
    ([PageRead.text "page one ", PageRead.noText, PageRead.text "page two"].all
      (fun p => !isRaise p) = true) ∧
    extract_text_from_pdf
      (fun _ => Except.ok [PageRead.text "page one ", PageRead.noText,
        PageRead.text "page two"]) "doc.pdf" =
      claimed_page_concat [PageRead.text "page one ", PageRead.noText,
        PageRead.text "page two"] :=
  ⟨by decide,
    (C8_amended_extraction_behavior
      (fun _ => Except.ok [PageRead.text "page one ", PageRead.noText,
        PageRead.text "page two"]) "doc.pdf").1
      [PageRead.text "page one ", PageRead.noText, PageRead.text "page two"]
      rfl (by decide)⟩

/-! ## Claim about the Notifier error path -/

/-- Counterexample to claim C9 at a concrete throwing transport: the
send_email_error call completes normally but its return value is None,
not a boolean success indicator; the boolean lives one level down, in
send_email_via_gmail_api, which reports the failure as false. -/
theorem C9_counterexample_returns_none_not_bool :
    isBoolRet (send_email_error true (fun _ _ _ => Except.error "transport raised")
      "user@example.com" "Docs" "analysis failed") = false ∧
    send_email_via_gmail_api true (fun _ _ _ => Except.error "transport raised")
      "user@example.com" "Re: Docs - Error Processing Document"
      "analysis failed" = false :=
  ⟨rfl, rfl⟩

/-- Claim C9 amended: send_email_error never raises — in both source
variants the embedded function is total and returns None for every
transport behavior, the throwing transport included — and the boolean
success indicator is returned by the transport helper
send_email_via_gmail_api, whose value send_email_error only logs: false
when the service handle is missing or the transport raises, true when the
transport send succeeds. -/
theorem C9_amended_never_raises_returns_none
    (gmail_service : Bool)
    (sendApi : String → String → String → Except String String)
    (smtpSend : String → String → String → Except String Unit)
    (recipient_email original_subject error_message : String) :
    send_email_error gmail_service sendApi recipient_email original_subject
      error_message = PyRet.none ∧
    send_email_error_main smtpSend recipient_email original_subject
      error_message = PyRet.none ∧
    (∀ to_email subject body mid,
      sendApi (extract_email_address to_email) subject body = Except.ok mid →
      send_email_via_gmail_api true sendApi to_email subject body = true) ∧
    (∀ to_email subject body e,
      sendApi (extract_email_address to_email) subject body = Except.error e →
      send_email_via_gmail_api true sendApi to_email subject body = false) ∧
    (∀ to_email subject body,
      send_email_via_gmail_api false sendApi to_email subject body = false) := by
  refine ⟨rfl, ?_, ?_, ?_, ?_⟩
  · simp only [send_email_error_main]
    split <;> rfl
  · intro to_email subject body mid hok
    simp [send_email_via_gmail_api, hok]
  · intro to_email subject body e herr
    simp [send_email_via_gmail_api, herr]
  · intro to_email subject body
    rfl

/-- Witness for C9: a succeeding transport makes the helper report true
while send_email_error still returns None. -/
theorem C9_witness :
    send_email_via_gmail_api true (fun _ _ _ => Except.ok "id1")
      "Jane Doe <user@example.com>" "Subj" "Body" = true ∧
    send_email_error true (fun _ _ _ => Except.ok "id1")
      "Jane Doe <user@example.com>" "Subj" "analysis failed" = PyRet.none :=
  ⟨(C9_amended_never_raises_returns_none true (fun _ _ _ => Except.ok "id1")
      (fun _ _ _ => Except.ok ()) "Jane Doe <user@example.com>" "Subj"
      "analysis failed").2.2.1 "Jane Doe <user@example.com>" "Subj" "Body" "id1" rfl,
    (C9_amended_never_raises_returns_none true (fun _ _ _ => Except.ok "id1")
      (fun _ _ _ => Except.ok ()) "Jane Doe <user@example.com>" "Subj"
      "analysis failed").1⟩

end LawAssistant
